import Mathlib

/-!
# Verification of the l2treviewtools review orchestrator

A shallow embedding, in Lean 4, of the parts of the `l2treviewtools`
repository that the specification's claims are about:

* `l2treviewtools/helpers/pylint.py` — the lint gate (`PylintHelper`);
* `l2treviewtools/helpers/upload.py` — the codereview (review-ticket) client
  (`UploadHelper`), in particular reviewer selection and issue queries;
* `l2treviewtools/helpers/github.py` — the forge client (`GitHubHelper`);
* `l2treviewtools/helpers/review.py` — the workflow orchestrator
  (`ReviewHelper`: `Create`, `Close`, `Lint`, `Test`, `Merge`,
  `PrepareMerge`) together with the command pipeline of
  `scripts/review.py` (`Main`).

Python strings are modelled as `String` / `List Char`, JSON dict fields as
`Option String` with explicit Python truthiness, subprocess and network
outcomes as explicit oracle inputs, and side effects as explicit effect
traces.  Fallible Python code (uncaught exceptions) is modelled with
`Option` / an explicit `raises` outcome.
-/

namespace L2TReviewTools

/-! ## Python string primitives

The helpers run on Python 2 byte strings (with a Python 3 fallback); the
string operations used by the code under verification are `split`,
`partition`, `startswith` and `int()`.  They are re-implemented here by
structural recursion over `List Char` so that every concrete run can be
evaluated by the kernel. -/

/-- Python `s.split(sep)` for a one-character separator: splits on every
occurrence, keeping empty groups (`''.split('.') == ['']`). -/
def splitOnChar (sep : Char) : List Char → List (List Char)
  | [] => [[]]
  | c :: rest =>
    let r := splitOnChar sep rest
    if c = sep then [] :: r
    else
      match r with
      | [] => [[c]]
      | group :: groups => (c :: group) :: groups

/-- The third component of Python `s.partition(sep)` for a one-character
separator: everything after the first occurrence, `''` if absent. -/
def afterFirstChar (sep : Char) : List Char → List Char
  | [] => []
  | c :: rest => if c = sep then rest else afterFirstChar sep rest

/-- The first component of Python `s.partition(sep)` for a one-character
separator: everything before the first occurrence, the whole string if
absent. -/
def beforeFirstChar (sep : Char) : List Char → List Char
  | [] => []
  | c :: rest => if c = sep then [] else c :: beforeFirstChar sep rest

/-- The numeric value of a decimal digit character, `none` otherwise. -/
def digitVal? (c : Char) : Option Nat :=
  if c.isDigit then some (c.toNat - 48) else none

/-- Decimal digits to a natural number; `none` on the empty string or on any
non-digit (Python `int()` raises `ValueError` there). -/
def natOfDigits? (cs : List Char) : Option Nat :=
  match cs with
  | [] => none
  | _ => cs.foldlM (fun acc c => (digitVal? c).map (fun d => acc * 10 + d)) 0

/-- Python `int(s)` on a plain decimal literal with an optional minus sign;
`none` models an uncaught `ValueError`. -/
def pyInt? : List Char → Option Int
  | '-' :: rest => (natOfDigits? rest).map (fun n => -(n : Int))
  | cs => (natOfDigits? cs).map (fun n => (n : Int))

/-- Bytewise (ASCII/code-point) lexicographic comparison, the ordering of
Python 2 byte strings. -/
def cmpCharList : List Char → List Char → Ordering
  | [], [] => Ordering.eq
  | [], _ :: _ => Ordering.lt
  | _ :: _, [] => Ordering.gt
  | a :: as, b :: bs =>
    match compare a.toNat b.toNat with
    | Ordering.eq => cmpCharList as bs
    | o => o

/-! ## A fragment of the Python 2 value universe

`PylintHelper.CheckUpToDateVersion` compares a *tuple of ints* (the parsed
pylint version) against `_MINIMUM_VERSION_TUPLE`, which the source builds as
`MINIMUM_VERSION.split(u'.')` — a *list of strings*.  To settle what that
comparison does we embed the Python 2 comparison semantics for exactly the
values that arise: ints, strings, and flat tuples/lists of those. -/

/-- A Python scalar as it occurs in the version gate: an int or a string. -/
inductive PyScalar where
  | int (n : Int)
  | str (chars : List Char)
deriving DecidableEq, Repr

/-- The Python type name of a scalar. -/
def pyScalarTypeName : PyScalar → List Char
  | PyScalar.int _ => ['i', 'n', 't']
  | PyScalar.str _ => ['s', 't', 'r']

/-- Python 2 `cmp` on scalars.  Same type: by value.  Different builtin
types: CPython 2 orders numbers before everything else and otherwise falls
back to the type name; for `int` versus `str` both rules give `int < str`,
so the type-name comparison is a faithful rendering of the cases that can
arise here. -/
def py2CmpScalar : PyScalar → PyScalar → Ordering
  | PyScalar.int a, PyScalar.int b => compare a b
  | PyScalar.str a, PyScalar.str b => cmpCharList a b
  | a, b => cmpCharList (pyScalarTypeName a) (pyScalarTypeName b)

/-- Python 2 sequence comparison: elementwise, shorter sequence first on a
common prefix. -/
def py2CmpScalarList : List PyScalar → List PyScalar → Ordering
  | [], [] => Ordering.eq
  | [], _ :: _ => Ordering.lt
  | _ :: _, [] => Ordering.gt
  | a :: as, b :: bs =>
    match py2CmpScalar a b with
    | Ordering.eq => py2CmpScalarList as bs
    | o => o

/-- A Python value as it occurs in the version gate: a scalar, a tuple of
scalars, or a list of scalars. -/
inductive PyVal where
  | scalar (v : PyScalar)
  | tuple (elems : List PyScalar)
  | list (elems : List PyScalar)
deriving DecidableEq, Repr

/-- The Python type name of a value. -/
def pyValTypeName : PyVal → List Char
  | PyVal.scalar v => pyScalarTypeName v
  | PyVal.tuple _ => ['t', 'u', 'p', 'l', 'e']
  | PyVal.list _ => ['l', 'i', 's', 't']

/-- Python 2 `cmp` on the values of the version gate.  A tuple and a list
are *different builtin types*: CPython 2 orders them by type name, so every
tuple compares greater than every list (`'tuple' > 'list'`), regardless of
the elements.  (Under Python 3 the same comparison raises `TypeError`; the
helpers declare support for both, and the embedding follows the Python 2
branch, under which the code runs without raising.) -/
def py2Cmp : PyVal → PyVal → Ordering
  | PyVal.scalar a, PyVal.scalar b => py2CmpScalar a b
  | PyVal.tuple a, PyVal.tuple b => py2CmpScalarList a b
  | PyVal.list a, PyVal.list b => py2CmpScalarList a b
  | a, b => cmpCharList (pyValTypeName a) (pyValTypeName b)

/-- Python 2 `a >= b`. -/
def py2Ge (a b : PyVal) : Bool :=
  match py2Cmp a b with
  | Ordering.lt => false
  | _ => true

/-! ## `PylintHelper` (`l2treviewtools/helpers/pylint.py`) -/

/-- `PylintHelper.MINIMUM_VERSION`. -/
def MINIMUM_VERSION : String := "1.6.5"

/-- `PylintHelper._MINIMUM_VERSION_TUPLE = MINIMUM_VERSION.split(u'.')`:
despite its name, a Python *list of strings* `['1', '6', '5']`. -/
def MINIMUM_VERSION_TUPLE : PyVal :=
  PyVal.list ((splitOnChar '.' MINIMUM_VERSION.data).map PyScalar.str)

/-- The pylint command line built for one file in
`PylintHelper.CheckFiles`. -/
def lintCommand (filename : String) : String :=
  "pylint --rcfile=utils/pylintrc " ++ filename

/-- Observable outcome of one run of `PylintHelper.CheckFiles`:
the subprocess command lines issued (one per file, in order), the
`failed_filenames` list the loop accumulates, the filenames printed under
the `Files with linter errors:` header, and the boolean result. -/
structure CheckFilesRun where
  invocations : List String
  failed_filenames : List String
  reported : List String
  result : Bool
deriving DecidableEq, Repr

/-- `PylintHelper.CheckFiles(filenames)`, with the per-file lint exit code
supplied by the `lintExitCode` oracle.  The loop invokes pylint once per
file and accumulates the failing names; the error report, however, iterates
`for failed_filename in filenames` — the *full* input list — which is
transcribed as is. -/
def CheckFiles (lintExitCode : String → Int) (filenames : List String) :
    CheckFilesRun :=
  let failed := filenames.filter (fun filename => lintExitCode filename ≠ 0)
  if failed.isEmpty then
    { invocations := filenames.map lintCommand
      failed_filenames := failed
      reported := []
      result := true }
  else
    { invocations := filenames.map lintCommand
      failed_filenames := failed
      reported := filenames
      result := false }

/-- Parse a dotted version into the Python tuple
`tuple([int(digit) for digit in version.split(b'.')])`; `none` models the
uncaught `ValueError` of `int()` on a malformed component. -/
def parseVersionChars? (version : List Char) : Option PyVal :=
  ((splitOnChar '.' version).mapM pyInt?).map
    (fun l => PyVal.tuple (l.map PyScalar.int))

/-- `PylintHelper.CheckUpToDateVersion()`, with the `pylint --version`
subprocess outcome supplied as `exit_code` and `output`.  Scans the output
lines for one starting with `pylint `, takes the text after the first space
and before the first comma as the version, parses it into a tuple of ints,
and compares that tuple against `_MINIMUM_VERSION_TUPLE` with Python 2
ordering.  `none` models an uncaught exception. -/
def CheckUpToDateVersion (exit_code : Int) (output : String) : Option Bool :=
  if exit_code ≠ 0 then some false
  else
    ((splitOnChar '\n' output.data).foldlM
      (fun version_tuple line =>
        if List.isPrefixOf "pylint ".data line then
          parseVersionChars? (beforeFirstChar ',' (afterFirstChar ' ' line))
        else some version_tuple)
      (PyVal.tuple [PyScalar.int 0, PyScalar.int 0, PyScalar.int 0])).map
      (fun version_tuple => py2Ge version_tuple MINIMUM_VERSION_TUPLE)

/-- The version comparison the specification describes: dotted versions
compared tuple-wise, component by component. -/
def specVersionTupleGe : List Int → List Int → Bool
  | _, [] => true
  | [], _ :: _ => false
  | a :: as, b :: bs =>
    if a > b then true
    else if a < b then false
    else specVersionTupleGe as bs

/-! ## Reviewer selection (`l2treviewtools/helpers/upload.py`)

`UploadHelper._REVIEWERS_PER_PROJECT`, `_REVIEWERS_DEFAULT` and
`_REVIEWERS_CC` are frozensets of email addresses; they are embedded as
duplicate-free lists.  `random.shuffle` followed by `reviewers[0]` makes the
chosen reviewer an arbitrary element of the (erased) pool, so the embedding
exposes the pool and quantifies over its members. -/

/-- `UploadHelper._REVIEWERS_DEFAULT`. -/
def REVIEWERS_DEFAULT : List String :=
  ["jberggren@gmail.com", "joachim.metz@gmail.com", "onager@deerpie.com"]

/-- `UploadHelper._REVIEWERS_CC`. -/
def REVIEWERS_CC : List String :=
  ["kiddi@kiddaland.net", "log2timeline-dev@googlegroups.com"]

/-- `self._REVIEWERS_PER_PROJECT.get(project_name, self._REVIEWERS_DEFAULT)`:
the hard-coded per-project reviewer pools, with the default pool for an
unlisted project. -/
def reviewersForProject (project_name : String) : List String :=
  if project_name = "dfdatetime" then
    ["joachim.metz@gmail.com", "onager@deerpie.com"]
  else if project_name = "dfkinds" then
    ["joachim.metz@gmail.com", "onager@deerpie.com"]
  else if project_name = "dfvfs" then
    ["joachim.metz@gmail.com", "onager@deerpie.com"]
  else if project_name = "dfwinreg" then
    ["joachim.metz@gmail.com", "onager@deerpie.com"]
  else if project_name = "dftimewolf" then
    ["jberggren@gmail.com", "someguyiknow@google.com", "tomchop@gmail.com"]
  else if project_name = "l2tpreg" then
    ["joachim.metz@gmail.com", "onager@deerpie.com"]
  else if project_name = "plaso" then
    ["aaronp@gmail.com", "jberggren@gmail.com", "joachim.metz@gmail.com",
     "onager@deerpie.com", "romaing@google.com"]
  else REVIEWERS_DEFAULT

/-- The `reviewers` list of `UploadHelper._GetReviewer` just before
`random.shuffle`: the project pool with the submitting author's address
removed (`list.remove` removes one occurrence, `ValueError` is swallowed).
After the shuffle, `reviewers[0]` is an arbitrary element of this list, so
its members are exactly the possible chosen reviewers. -/
def GetReviewerCandidates (project_name email_address : String) : List String :=
  (reviewersForProject project_name).erase email_address

/-- `UploadHelper._GetReviewersOnCC(project_name, reviewer)` for the helper
initialized with `email_address`: builds the CC set as the project pool
united with `_REVIEWERS_CC`, removes the chosen reviewer (an unguarded
`set.remove`, whose `KeyError` would propagate — modelled as `none`), then
removes the author's address with the `KeyError` swallowed.  The result is
the set that the source then joins with commas. -/
def GetReviewersOnCC (project_name email_address reviewer : String) :
    Option (Finset String) :=
  let reviewers_cc : Finset String :=
    (reviewersForProject project_name).toFinset ∪ REVIEWERS_CC.toFinset
  if reviewer ∈ reviewers_cc then
    some ((reviewers_cc.erase reviewer).erase email_address)
  else none

/-! ## Project-name prefix removal (`ReviewHelper._PROJECT_NAME_PREFIX_REGEX`)

`review.py` builds `re.compile(r'\[({0:s})\] '.format('|'.join(
project.ProjectHelper.SUPPORTED_PROJECTS)))` and applies `.sub(u'', s)` to a
ticket subject.  `re.sub` with this (unanchored) pattern removes *every*
non-overlapping occurrence of `"[name] "`, scanning left to right. -/

/-- Modelled from the spec: `ProjectHelper.SUPPORTED_PROJECTS`, the fixed,
case-sensitively matched set of recognized project identifiers (the module
`l2treviewtools/helpers/project.py` is not among the sources at hand).  The
spec names `plaso` as a recognized identifier and `l2tdocs` as the
designated documentation-only project. -/
def SUPPORTED_PROJECTS : List String := ["l2tdocs", "plaso"]

/-- Length of the regex match `\[(name1|...|nameN)\] ` at the head of `cs`,
if any: `'['`, a recognized project name, `']'`, `' '`. -/
def projectTokenLength? (cs : List Char) : Option Nat :=
  (SUPPORTED_PROJECTS.find?
      (fun p => List.isPrefixOf (('[' :: p.data) ++ [']', ' ']) cs)).map
    (fun p => p.data.length + 3)

/-- Worker for `re.sub(pattern, '', s)`: scan left to right; at each
position either a token match starts (delete its characters — the counter
carries how many remain to delete) or the character is kept.  Scanning
resumes after a deleted token, exactly as `re.sub` resumes after a match. -/
def pySubProjectTokensGo : Nat → List Char → List Char
  | _, [] => []
  | toDelete + 1, _ :: cs => pySubProjectTokensGo toDelete cs
  | 0, c :: cs =>
    match projectTokenLength? (c :: cs) with
    | some n => pySubProjectTokensGo (n - 1) cs
    | none => c :: pySubProjectTokensGo 0 cs

/-- `self._PROJECT_NAME_PREFIX_REGEX.sub(u'', description)`. -/
def projectTokenSub (description : String) : String :=
  String.mk (pySubProjectTokensGo 0 description.data)

/-! ## Network clients (`upload.py` / `github.py`)

`UploadHelper.QueryIssue` and `GitHubHelper.QueryUser` each issue a single
`urllib urlopen` call (no retry loop exists anywhere in either client).
`urlopen` either returns a response object with a status code, raises
`HTTPError` (an HTTP-level error response), or raises a plain `URLError` /
socket error for a transport failure that never produced an HTTP response.
The `try` blocks of both methods catch *only* `HTTPError`. -/

/-- The outcome of the single `urlopen` call a client method makes. -/
inductive UrlOpenOutcome where
  | httpError
  | transportError
  | response (code : Int) (body : String)
deriving DecidableEq, Repr

/-- The observable result of calling a Python method: a normal return, or
an uncaught exception propagating out of it. -/
inductive PyOutcome (α : Type) where
  | returns (a : α)
  | raises
deriving DecidableEq, Repr

/-- `GitHubHelper.QueryUser(username)`: on `HTTPError` log and return
`None`; a transport error (`URLError`) is not caught and propagates; on a
response with a non-200 code log and return `None`; otherwise return the
parsed JSON body (carried here as the raw body). -/
def QueryUser (net : UrlOpenOutcome) : PyOutcome (Option String) :=
  match net with
  | UrlOpenOutcome.httpError => PyOutcome.returns none
  | UrlOpenOutcome.transportError => PyOutcome.raises
  | UrlOpenOutcome.response code body =>
    if code ≠ 200 then PyOutcome.returns none
    else PyOutcome.returns (some body)

/-- `UploadHelper.QueryIssue(issue_number)`: the same single-attempt shape
as `QueryUser` — catch `HTTPError`, treat non-200 as `None`, let a
transport error propagate. -/
def QueryIssue (net : UrlOpenOutcome) : PyOutcome (Option String) :=
  match net with
  | UrlOpenOutcome.httpError => PyOutcome.returns none
  | UrlOpenOutcome.transportError => PyOutcome.raises
  | UrlOpenOutcome.response code body =>
    if code ≠ 200 then PyOutcome.returns none
    else PyOutcome.returns (some body)

/-! ## `ReviewHelper.PrepareMerge` (`review.py`) -/

/-- The fields of the codereview issue JSON that `PrepareMerge` reads
(`dict.get(key, None)`); a missing key is `none`. -/
structure TicketInfo where
  subject : Option String
  owner_email : Option String
  owner : Option String
deriving DecidableEq, Repr

/-- The fields of the github user JSON that `PrepareMerge` reads. -/
structure ForgeUserInfo where
  name : Option String
  company : Option String
deriving DecidableEq, Repr

/-- Python truthiness of an optional string field: `None` and `''` are
falsy. -/
def truthy : Option String → Bool
  | none => false
  | some s => !s.isEmpty

/-- The outcome of `ReviewHelper.PrepareMerge`: abort, or the recovered
merge description and merge author. -/
inductive PrepareMergeOutcome where
  | failed
  | ok (merge_description merge_author : String)
deriving DecidableEq, Repr

/-- `ReviewHelper.PrepareMerge(codereview_issue_number)`, with the two
network lookups supplied as inputs: the codereview issue query result and
the github user query result (each `none` on failure).  Checks the subject,
strips recognized project-name tokens from it, checks the owner email, then
resolves the author's full name by `name` → `owner` → `company` fallback,
failing when all three are absent; the merge author is
`'{0:s} <{1:s}>'.format(merge_fullname, merge_email_address)`. -/
def PrepareMerge (codereview_information : Option TicketInfo)
    (github_user_information : Option ForgeUserInfo) : PrepareMergeOutcome :=
  match codereview_information with
  | none => PrepareMergeOutcome.failed
  | some ticket =>
    if !truthy ticket.subject then PrepareMergeOutcome.failed
    else
      let merge_description := projectTokenSub (ticket.subject.getD "")
      if !truthy ticket.owner_email then PrepareMergeOutcome.failed
      else
        let merge_email_address := ticket.owner_email.getD ""
        match github_user_information with
        | none => PrepareMergeOutcome.failed
        | some user =>
          let fullname1 := user.name
          let fullname2 := if truthy fullname1 then fullname1 else ticket.owner
          let fullname3 := if truthy fullname2 then fullname2 else user.company
          if !truthy fullname3 then PrepareMergeOutcome.failed
          else
            PrepareMergeOutcome.ok merge_description
              (fullname3.getD "" ++ " <" ++ merge_email_address ++ ">")

/-- The fallback order the specification describes for the merge author's
display name: forge display name, then ticket owner, then forge company;
`none` when all three are absent (Python-falsy). -/
def resolveMergeFullName (forge_name ticket_owner forge_company : Option String) :
    Option String :=
  if truthy forge_name then forge_name
  else if truthy ticket_owner then ticket_owner
  else if truthy forge_company then forge_company
  else none

/-! ## `ReviewHelper.Close` (`review.py`) -/

/-- The externally visible actions of a `close` run. -/
inductive CloseAction where
  | removeFeatureBranch (branch : String)
  | removeReviewRecord (branch : String)
  | closeIssue (issue : Int)
deriving DecidableEq, Repr

/-- `ReviewHelper.Close()`.  Modelled from the spec where it depends on
`reviewfile.ReviewFile` (not among the sources at hand): per spec §3/§6 the
ReviewRecord is a per-branch file holding the ticket number, so its state is
supplied as `recordExists` / `recordIssue`, and `Remove` is the
`removeReviewRecord` action.  A missing branch is only reported; a missing
record is only reported; a record with a truthy ticket number additionally
triggers a `CloseIssue` call whose failure is only reported.  The method
always returns `True`. -/
def Close (feature_branch : String) (hasBranch recordExists : Bool)
    (recordIssue : Option Int) (_closeIssueOk : Bool) :
    List CloseAction × Bool :=
  let branchActions :=
    if hasBranch then [CloseAction.removeFeatureBranch feature_branch] else []
  let recordActions :=
    if recordExists then
      CloseAction.removeReviewRecord feature_branch ::
        (match recordIssue with
         | some n => if n ≠ 0 then [CloseAction.closeIssue n] else []
         | none => [])
    else []
  (branchActions ++ recordActions, true)

/-! ## The `create` command pipeline (`scripts/review.py` + `review.py`)

`Main` runs, for `create`: `InitializeHelpers` → `CheckLocalGitState` →
`CheckRemoteGitState` → `Lint` → `Test` → `Create`.  The git, netrc and
review-file collaborators are not among the sources at hand; per spec
§4.4/§6 they are single synchronous operations, supplied here as oracle
fields of `CreateEnv`, and the git side effects are recorded in an explicit
trace.  `InitializeHelpers` and the `.netrc`-existence check of `Main` only
gate entry and have no relevant side effects, so the pipeline is modelled
from `CheckLocalGitState` on. -/

/-- The environment one `create` run observes. -/
structure CreateEnv where
  hasProjectUpstream : Bool
  hasUncommittedChanges : Bool
  activeBranch : String
  synchronizedWithUpstream : Bool
  synchronizeOk : Bool
  pushOk : Bool
  reviewRecordExists : Bool
  remoteOrigin : String
  githubAccessToken : Option String
  lintOk : Bool
  testOk : Bool
  createIssueNumber : Option Int
  pullRequestOk : Bool
deriving DecidableEq, Repr

/-- The externally visible side effects of a `create` run. -/
inductive GitEffect where
  | synchronizeWithUpstream
  | pushToOrigin (branch : String) (force : Bool)
  | createReviewTicket
  | writeReviewRecord (branch : String)
  | createPullRequest
deriving DecidableEq, Repr

/-- `ReviewHelper.CheckLocalGitState()` for `command == 'create'`: project
upstream present, no uncommitted changes, active branch not `master`. -/
def CheckLocalGitStateCreate (env : CreateEnv) : Bool :=
  if !env.hasProjectUpstream then false
  else if env.hasUncommittedChanges then false
  else if env.activeBranch = "master" then false
  else true

/-- `ReviewHelper.CheckRemoteGitState()` for `command == 'create'`: when the
branch is not synchronized with upstream, synchronize (aborting on failure)
and push *forced*; otherwise push plain.  The push is attempted (and traced)
whether or not it succeeds. -/
def CheckRemoteGitStateCreate (env : CreateEnv) : List GitEffect × Bool :=
  if env.synchronizedWithUpstream then
    ([GitEffect.pushToOrigin env.activeBranch false], env.pushOk)
  else if !env.synchronizeOk then
    ([GitEffect.synchronizeWithUpstream], false)
  else
    ([GitEffect.synchronizeWithUpstream,
      GitEffect.pushToOrigin env.activeBranch true], env.pushOk)

/-- `ReviewHelper.Create()`.  The review-file existence check comes *first*;
then the remote origin must be a `https://github.com/` URL, a github access
token must be available from `.netrc`, the codereview issue is created (the
`createReviewTicket` effect is traced only when the upload tool actually
returns an issue number), the ReviewRecord is written, and a pull request is
attempted (its failure is only reported).  Description handling (last commit
message versus interactive input) does not affect the traced effects and is
omitted. -/
def CreateStep (env : CreateEnv) : List GitEffect × Bool :=
  if env.reviewRecordExists then ([], false)
  else if !(List.isPrefixOf "https://github.com/".data env.remoteOrigin.data) then
    ([], false)
  else
    match env.githubAccessToken with
    | none => ([], false)
    | some _ =>
      match env.createIssueNumber with
      | none => ([], false)
      | some _ =>
        ([GitEffect.createReviewTicket,
          GitEffect.writeReviewRecord env.activeBranch,
          GitEffect.createPullRequest], true)

/-- One run of `review.py create` from `CheckLocalGitState` on, as sequenced
by `Main`: local state check, remote state check (which pushes), lint gate,
test gate, then `Create`. -/
def CreateCommandRun (env : CreateEnv) : List GitEffect × Bool :=
  if !CheckLocalGitStateCreate env then ([], false)
  else
    let remote := CheckRemoteGitStateCreate env
    if !remote.2 then (remote.1, false)
    else if !env.lintOk then (remote.1, false)
    else if !env.testOk then (remote.1, false)
    else
      let c := CreateStep env
      (remote.1 ++ c.1, c.2)

/-! ## The `merge` discard behaviour (`review.py`)

For `command == 'merge'`, `Main` runs `Lint` → `Test` → `Merge` (after
`PrepareMerge` / `PullChangesFromFork`, which touch no uncommitted state).
`Lint` aborts without discarding when the pylint version check fails, and
discards on a lint failure; `Test` discards on failure; `Merge` discards
when the version-file update, the dpkg-changelog update, or the final commit
to origin fails, and ignores the results of the API-doc regeneration and the
readthedocs build trigger entirely.  The environment is passed as individual
booleans; the project is not the documentation-only project (`l2tdocs`), for
which both gates would be skipped. -/

/-- The externally visible actions of the merge gates and `Merge`. -/
inductive MergeEffect where
  | dropUncommittedChanges
  | updateAPIDocs
  | addDocsPath
  | triggerDocsBuild
  | commitToOrigin
  | addMergeMessage
deriving DecidableEq, Repr

/-- `ReviewHelper.Lint()` for `command == 'merge'`: a failing pylint version
check aborts with *no* discard; failing `CheckFiles` discards and aborts. -/
def LintStepMerge (pylintVersionOk lintFilesOk : Bool) :
    List MergeEffect × Bool :=
  if !pylintVersionOk then ([], false)
  else if !lintFilesOk then ([MergeEffect.dropUncommittedChanges], false)
  else ([], true)

/-- `ReviewHelper.Test()` for `command == 'merge'`: a failing test run
discards and aborts. -/
def TestStepMerge (testOk : Bool) : List MergeEffect × Bool :=
  if !testOk then ([MergeEffect.dropUncommittedChanges], false)
  else ([], true)

/-- `ReviewHelper.Merge(codereview_issue_number)`: version-file update and
dpkg-changelog update each discard-and-abort on failure; when the API-doc
configuration exists, the docs are regenerated, staged and a readthedocs
build is triggered with the results ignored (`_triggerBuildOk` cannot
influence anything); a failing final `CommitToOriginInNameOf` *discards and
aborts*; on success a merge message is added to the ticket with its result
ignored (`_addMergeMessageOk`). -/
def MergeStep (updateVersionOk updateDpkgOk apidocConfigExists
    _triggerBuildOk commitOk _addMergeMessageOk : Bool) :
    List MergeEffect × Bool :=
  if !updateVersionOk then ([MergeEffect.dropUncommittedChanges], false)
  else if !updateDpkgOk then ([MergeEffect.dropUncommittedChanges], false)
  else
    let docs :=
      if apidocConfigExists then
        [MergeEffect.updateAPIDocs, MergeEffect.addDocsPath,
         MergeEffect.triggerDocsBuild]
      else []
    if !commitOk then
      (docs ++ [MergeEffect.commitToOrigin,
                MergeEffect.dropUncommittedChanges], false)
    else
      (docs ++ [MergeEffect.commitToOrigin, MergeEffect.addMergeMessage], true)

/-- The discard-relevant tail of one `review.py merge` run: lint gate, test
gate, then `Merge`, with the effect traces concatenated. -/
def MergeCommandRun (pylintVersionOk lintFilesOk testOk updateVersionOk
    updateDpkgOk apidocConfigExists triggerBuildOk commitOk
    addMergeMessageOk : Bool) : List MergeEffect × Bool :=
  let lint := LintStepMerge pylintVersionOk lintFilesOk
  if !lint.2 then lint
  else
    let test := TestStepMerge testOk
    if !test.2 then (lint.1 ++ test.1, false)
    else
      let merge := MergeStep updateVersionOk updateDpkgOk apidocConfigExists
        triggerBuildOk commitOk addMergeMessageOk
      (lint.1 ++ test.1 ++ merge.1, merge.2)

/-! ## Theorems -/

/-- C4: `PylintHelper.CheckFiles` invokes the lint tool once per file and
returns `False` when a file fails lint, but its failure report prints the
*whole* input list, not the collected `failed_filenames`: with
`["good.py", "bad.py"]` where only `bad.py` fails, the result is `False`,
the collected failing list is `["bad.py"]`, yet both filenames are printed
under the `Files with linter errors:` header.  This contradicts the claim
that exactly the failing filenames are reported (and the code's own header
and the unused `failed_filenames` accumulator show the report loop iterates
the wrong list). -/
theorem checkFiles_reports_all_filenames_on_failure :
    (CheckFiles (fun f => if f = "bad.py" then 1 else 0)
        ["good.py", "bad.py"]).result = false ∧
    (CheckFiles (fun f => if f = "bad.py" then 1 else 0)
        ["good.py", "bad.py"]).failed_filenames = ["bad.py"] ∧
    (CheckFiles (fun f => if f = "bad.py" then 1 else 0)
        ["good.py", "bad.py"]).reported = ["good.py", "bad.py"] ∧
    (CheckFiles (fun f => if f = "bad.py" then 1 else 0)
        ["good.py", "bad.py"]).invocations =
      [lintCommand "good.py", lintCommand "bad.py"] := by decide

/-- C9: the version gate of `PylintHelper.CheckUpToDateVersion` is
ineffective: `_MINIMUM_VERSION_TUPLE` is a Python *list of strings*, so the
parsed int *tuple* compares greater than it by Python 2's type-name ordering
no matter what the version is — `pylint 0.9.0` passes the gate even though
tuple-wise `(0, 9, 0) < (1, 6, 5)`.  Only the subprocess-failure branch
behaves as the claim states. -/
theorem checkUpToDateVersion_gate_ineffective :
    CheckUpToDateVersion 0 "pylint 0.9.0\n" = some true ∧
    specVersionTupleGe [0, 9, 0] [1, 6, 5] = false ∧
    CheckUpToDateVersion 1 "" = some false := by decide

/-- C7: the project-name token pattern is unanchored, and `re.sub` removes
every occurrence: `"Fix [plaso] thing"` — where the recognized token is
*not* leading — becomes `"Fix thing"`, though the claim says nothing but a
leading token may be altered.  A leading recognized token is stripped and
unrecognized or case-mismatched bracket text is left untouched, as
claimed. -/
theorem projectTokenSub_strips_mid_string :
    projectTokenSub "Fix [plaso] thing" = "Fix thing" ∧
    projectTokenSub "[plaso] Fix thing" = "Fix thing" ∧
    projectTokenSub "[unknown] Fix thing" = "[unknown] Fix thing" ∧
    projectTokenSub "[Plaso] Fix thing" = "[Plaso] Fix thing" := by decide

/-- C3 counterexample: a transport error (`URLError` without an HTTP
response) is not caught by the `except HTTPError` handlers of
`UploadHelper.QueryIssue` and `GitHubHelper.QueryUser`, so an exception
*does* propagate out of a client method, contrary to the claim. -/
theorem query_transport_error_escapes :
    QueryUser UrlOpenOutcome.transportError = PyOutcome.raises ∧
    QueryIssue UrlOpenOutcome.transportError = PyOutcome.raises := by decide

/-- C3 amended: each client query makes exactly one attempt (the functions
consume a single `urlopen` outcome); an `HTTPError` or a non-200 response is
caught/handled, logged, and surfaced as `None`; but a transport error
propagates as an uncaught exception. -/
theorem client_single_attempt_mapping :
    ∀ (code : Int) (body : String),
      QueryUser UrlOpenOutcome.httpError = PyOutcome.returns none ∧
      QueryIssue UrlOpenOutcome.httpError = PyOutcome.returns none ∧
      QueryUser UrlOpenOutcome.transportError = PyOutcome.raises ∧
      QueryIssue UrlOpenOutcome.transportError = PyOutcome.raises ∧
      QueryUser (UrlOpenOutcome.response code body) =
        (if code = 200 then PyOutcome.returns (some body)
         else PyOutcome.returns none) ∧
      QueryIssue (UrlOpenOutcome.response code body) =
        (if code = 200 then PyOutcome.returns (some body)
         else PyOutcome.returns none) := by
  intro code body
  by_cases h : code = 200 <;> simp [QueryUser, QueryIssue, h]

/-- C2 counterexample: in a merge where every gate passes but the final
commit to origin fails, uncommitted changes *are* discarded — contrary to
the claim that no step after lint/test/version-update triggers a
discard. -/
theorem merge_commit_failure_discards :
    (MergeCommandRun true true true true true false true false true).2 =
      false ∧
    MergeEffect.dropUncommittedChanges ∈
      (MergeCommandRun true true true true true false true false true).1 := by
  decide

/-- C2 amended: during a merge, uncommitted changes are discarded exactly
when the run fails after passing the pylint version check — on a lint-file
failure, a test failure, a version-file or dpkg-changelog update failure, or
a failure of the final commit to origin; a pylint-version-check failure
aborts without discarding, and the API-doc regeneration, the docs-build
trigger and the merge-message publication cannot affect the outcome. -/
theorem merge_discard_policy :
    ∀ pv lf t uv ud ac tb c am : Bool,
      (MergeEffect.dropUncommittedChanges ∈
          (MergeCommandRun pv lf t uv ud ac tb c am).1 ↔
        ((MergeCommandRun pv lf t uv ud ac tb c am).2 = false ∧ pv = true)) ∧
      ((MergeCommandRun pv lf t uv ud true tb c am).2 =
        (MergeCommandRun pv lf t uv ud false tb c am).2) ∧
      ((MergeCommandRun pv lf t uv ud ac true c am).2 =
        (MergeCommandRun pv lf t uv ud ac false c am).2) ∧
      ((MergeCommandRun pv lf t uv ud ac tb c true).2 =
        (MergeCommandRun pv lf t uv ud ac tb c false).2) := by decide

/-- Every hard-coded reviewer pool (and the default pool) is duplicate-free:
the lists embed frozensets. -/
theorem reviewersForProject_nodup (project_name : String) :
    (reviewersForProject project_name).Nodup := by
  unfold reviewersForProject
  split_ifs <;> decide

/-- Every hard-coded reviewer pool (and the default pool) holds at least two
addresses. -/
theorem reviewersForProject_two_le_length (project_name : String) :
    2 ≤ (reviewersForProject project_name).length := by
  unfold reviewersForProject
  split_ifs <;> decide

/-- Removing the author's address leaves the reviewer pool nonempty. -/
theorem getReviewerCandidates_ne_nil (project_name email_address : String) :
    GetReviewerCandidates project_name email_address ≠ [] := by
  have h2 := reviewersForProject_two_le_length project_name
  intro h
  have hlen := congrArg List.length h
  rw [GetReviewerCandidates, List.length_erase] at hlen
  simp only [List.length_nil] at hlen
  split at hlen <;> omega

/-- C10: reviewer selection is total — for every project name and author
address, the pool `_GetReviewer` indexes with `reviewers[0]` is nonempty
(every hard-coded pool holds at least two addresses and `remove` deletes at
most one), and for every reviewer the shuffle can yield,
`_GetReviewersOnCC`'s unguarded `reviewers_cc.remove(reviewer)` succeeds,
because the reviewer was drawn from the pool that seeds the CC set. -/
theorem reviewer_selection_total (project_name email_address : String) :
    GetReviewerCandidates project_name email_address ≠ [] ∧
    2 ≤ (reviewersForProject project_name).length ∧
    ∀ reviewer, reviewer ∈ GetReviewerCandidates project_name email_address →
      (GetReviewersOnCC project_name email_address reviewer).isSome = true := by
  refine ⟨getReviewerCandidates_ne_nil _ _,
    reviewersForProject_two_le_length _, ?_⟩
  intro reviewer hr
  have hmem : reviewer ∈ reviewersForProject project_name :=
    List.mem_of_mem_erase hr
  have hcc : reviewer ∈
      ((reviewersForProject project_name).toFinset ∪
        REVIEWERS_CC.toFinset : Finset String) :=
    Finset.mem_union_left _ (List.mem_toFinset.mpr hmem)
  simp only [GetReviewersOnCC, if_pos hcc, Option.isSome_some]

/-- C10 witness: a concrete instance — for project `plaso` with author
`onager@deerpie.com`, the candidate pool is nonempty and the CC removal
succeeds for the candidate `joachim.metz@gmail.com`. -/
theorem reviewer_selection_total_witness :
    GetReviewerCandidates "plaso" "onager@deerpie.com" ≠ [] ∧
    (GetReviewersOnCC "plaso" "onager@deerpie.com"
        "joachim.metz@gmail.com").isSome = true :=
  ⟨(reviewer_selection_total "plaso" "onager@deerpie.com").1,
   (reviewer_selection_total "plaso" "onager@deerpie.com").2.2
     "joachim.metz@gmail.com" (by decide)⟩

/-- C5: for every project name and submitting-author address, any reviewer
`_GetReviewer` can choose differs from the author, and `_GetReviewersOnCC`
returns exactly (the project's pool — or the default pool for an unlisted
project — united with the fixed default CC set) minus the chosen reviewer
minus the author; in particular neither the author nor the chosen reviewer
appears on CC. -/
theorem createIssue_reviewer_not_author_cc_formula
    (project_name email_address reviewer : String)
    (h : reviewer ∈ GetReviewerCandidates project_name email_address) :
    reviewer ≠ email_address ∧
    GetReviewersOnCC project_name email_address reviewer =
      some ((((reviewersForProject project_name).toFinset ∪
          REVIEWERS_CC.toFinset) \ {reviewer}) \ {email_address}) ∧
    email_address ∉ (((reviewersForProject project_name).toFinset ∪
        REVIEWERS_CC.toFinset) \ {reviewer}) \ {email_address} ∧
    reviewer ∉ (((reviewersForProject project_name).toFinset ∪
        REVIEWERS_CC.toFinset) \ {reviewer}) \ {email_address} := by
  have hnd := reviewersForProject_nodup project_name
  have hne : reviewer ≠ email_address :=
    ((List.Nodup.mem_erase_iff hnd).mp h).1
  have hmem : reviewer ∈ reviewersForProject project_name :=
    List.mem_of_mem_erase h
  have hcc : reviewer ∈
      ((reviewersForProject project_name).toFinset ∪
        REVIEWERS_CC.toFinset : Finset String) :=
    Finset.mem_union_left _ (List.mem_toFinset.mpr hmem)
  refine ⟨hne, ?_, ?_, ?_⟩
  · simp only [GetReviewersOnCC, if_pos hcc, Finset.erase_eq]
  · simp [Finset.mem_sdiff]
  · simp [Finset.mem_sdiff]

/-- C5 witness: for project `plaso`, author `onager@deerpie.com` and chosen
reviewer `romaing@google.com`, the reviewer differs from the author and the
CC set is the stated set difference. -/
theorem createIssue_reviewer_not_author_cc_formula_witness :
    ("romaing@google.com" : String) ≠ "onager@deerpie.com" ∧
    GetReviewersOnCC "plaso" "onager@deerpie.com" "romaing@google.com" =
      some ((((reviewersForProject "plaso").toFinset ∪
          REVIEWERS_CC.toFinset) \ {"romaing@google.com"}) \
        {"onager@deerpie.com"}) :=
  ⟨(createIssue_reviewer_not_author_cc_formula "plaso" "onager@deerpie.com"
      "romaing@google.com" (by decide)).1,
   (createIssue_reviewer_not_author_cc_formula "plaso" "onager@deerpie.com"
      "romaing@google.com" (by decide)).2.1⟩

/-- C6: in `PrepareMerge`, once the ticket has a usable subject and owner
email, the merge author's display name is resolved by trying the forge
user's `name`, then the ticket's `owner`, then the forge user's `company`
(Python-falsy values skipped); if all three are absent the preparation
fails, and otherwise the merge author is the resolved full name followed by
the ticket owner's email in angle brackets. -/
theorem prepareMerge_author_fallback (ticket : TicketInfo)
    (user : ForgeUserInfo) (hs : truthy ticket.subject = true)
    (he : truthy ticket.owner_email = true) :
    PrepareMerge (some ticket) (some user) =
      match resolveMergeFullName user.name ticket.owner user.company with
      | none => PrepareMergeOutcome.failed
      | some full =>
        PrepareMergeOutcome.ok (projectTokenSub (ticket.subject.getD ""))
          (full ++ " <" ++ ticket.owner_email.getD "" ++ ">") := by
  obtain ⟨subject, owner_email, owner⟩ := ticket
  obtain ⟨name, company⟩ := user
  simp only at hs he ⊢
  unfold PrepareMerge resolveMergeFullName
  simp only [hs, he, Bool.not_true, Bool.false_eq_true, if_false]
  by_cases h1 : truthy name <;> by_cases h2 : truthy owner <;>
    by_cases h3 : truthy company <;>
    simp_all [truthy] <;>
    (try rcases name with _ | ns) <;> (try rcases owner with _ | os) <;>
    (try rcases company with _ | cs) <;> simp_all

/-- C6 witness: the spec scenario — ticket
`{subject: "[plaso] X", owner_email: "a@b.com", owner: "Alice"}` and forge
user `{name: null, company: "Acme"}` resolve to merge description `"X"` and
merge author `"Alice <a@b.com>"` (ticket-owner fallback). -/
theorem prepareMerge_author_fallback_witness :
    PrepareMerge (some ⟨some "[plaso] X", some "a@b.com", some "Alice"⟩)
        (some ⟨none, some "Acme"⟩) =
      PrepareMergeOutcome.ok "X" "Alice <a@b.com>" := by
  rw [prepareMerge_author_fallback
    ⟨some "[plaso] X", some "a@b.com", some "Alice"⟩ ⟨none, some "Acme"⟩
    (by decide) (by decide)]
  decide

/-- C8: `Close` always reports success, and the ReviewRecord for the named
feature branch is removed exactly when it exists — independent of whether
the local branch exists, of the recorded ticket number, and of whether
closing the codereview issue succeeds (missing branch, missing record and a
failed issue close are only reported). -/
theorem close_best_effort (feature_branch : String)
    (hasBranch recordExists : Bool) (recordIssue : Option Int)
    (closeOk : Bool) :
    (Close feature_branch hasBranch recordExists recordIssue closeOk).2 =
      true ∧
    (CloseAction.removeReviewRecord feature_branch ∈
        (Close feature_branch hasBranch recordExists recordIssue closeOk).1 ↔
      recordExists = true) := by
  cases hasBranch <;> cases recordExists <;>
    rcases recordIssue with _ | n <;> simp [Close]

/-- C1 counterexample: a `create` run in which a ReviewRecord already exists
for the active branch `feature` and the branch needs resynchronizing.  The
run fails, but a *forced push to origin has already been performed* by the
remote-state check, which `Main` sequences before `Create`'s review-file
check — refuting the claim that such a run performs no push. -/
theorem create_push_happens_despite_existing_record :
    (CreateCommandRun ⟨true, false, "feature", false, true, true, true,
        "https://github.com/user/plaso.git", some "token", true, true,
        some 12345, true⟩).2 = false ∧
    GitEffect.pushToOrigin "feature" true ∈
      (CreateCommandRun ⟨true, false, "feature", false, true, true, true,
        "https://github.com/user/plaso.git", some "token", true, true,
        some 12345, true⟩).1 ∧
    GitEffect.createReviewTicket ∉
      (CreateCommandRun ⟨true, false, "feature", false, true, true, true,
        "https://github.com/user/plaso.git", some "token", true, true,
        some 12345, true⟩).1 := by decide

/-- C1 amended: when a ReviewRecord already exists for the active branch,
every `create` run fails, creates no review ticket and writes no
ReviewRecord — but the push to origin (plain, or forced when a
resynchronize with upstream was needed) may already have been performed by
the remote-state check that runs before the review-file check. -/
theorem create_fails_no_ticket_when_record_exists (env : CreateEnv)
    (h : env.reviewRecordExists = true) :
    (CreateCommandRun env).2 = false ∧
    GitEffect.createReviewTicket ∉ (CreateCommandRun env).1 ∧
    (∀ b, GitEffect.writeReviewRecord b ∉ (CreateCommandRun env).1) := by
  unfold CreateCommandRun CreateStep CheckRemoteGitStateCreate
  rw [h]
  split_ifs <;> simp_all

/-- C1 amended, witness: a concrete `create` run with an existing
ReviewRecord fails with no ticket created and no record written. -/
theorem create_fails_no_ticket_when_record_exists_witness :
    (CreateCommandRun ⟨true, false, "feature", true, true, true, true,
        "https://github.com/user/plaso.git", some "token", true, true,
        some 12345, true⟩).2 = false ∧
    GitEffect.createReviewTicket ∉
      (CreateCommandRun ⟨true, false, "feature", true, true, true, true,
        "https://github.com/user/plaso.git", some "token", true, true,
        some 12345, true⟩).1 ∧
    GitEffect.writeReviewRecord "feature" ∉
      (CreateCommandRun ⟨true, false, "feature", true, true, true, true,
        "https://github.com/user/plaso.git", some "token", true, true,
        some 12345, true⟩).1 :=
  ⟨(create_fails_no_ticket_when_record_exists
      ⟨true, false, "feature", true, true, true, true,
        "https://github.com/user/plaso.git", some "token", true, true,
        some 12345, true⟩ rfl).1,
   (create_fails_no_ticket_when_record_exists
      ⟨true, false, "feature", true, true, true, true,
        "https://github.com/user/plaso.git", some "token", true, true,
        some 12345, true⟩ rfl).2.1,
   (create_fails_no_ticket_when_record_exists
      ⟨true, false, "feature", true, true, true, true,
        "https://github.com/user/plaso.git", some "token", true, true,
        some 12345, true⟩ rfl).2.2 "feature"⟩

end L2TReviewTools
